import Mathlib

/-!
Verification of the customer-lifetime-analysis pipeline.

This file gives a shallow embedding of the two core components of the
repository — the RFM engine (`src/features/rfm_metrics.py`) and the CLV
estimator (`src/features/clv_calculator.py`) — and proves properties of the
embedded definitions.

Modelling conventions:
* a pandas DataFrame is a `List` of records; a column that a stage has not
  yet produced is an `Option` field holding `none` (pandas `NaN` for a value
  that a binning step failed to assign is also `none`);
* dates are integer day numbers, amounts are exact rationals `ℚ`;
* Python exceptions (`ValueError`, `KeyError`) become an explicit
  `Except PipelineError` result;
* the external `lifetimes` library fitters are abstract function-valued
  structures: only the sequencing and column behaviour of the estimator is
  in scope, never the statistical math itself.
-/

/-- A transaction row: `customer_id`, `transaction_date` (day number) and
`amount`, as consumed by `RFMCalculator.calculate_rfm`. -/
structure Transaction where
  customer_id : Nat
  transaction_date : Int
  amount : ℚ
deriving DecidableEq

/-- Model of `Series.max` on an integer date column (0 on an empty column; the code
only evaluates it on nonempty groups). -/
def maxDate : List Int → Int
  | [] => 0
  | d :: ds => ds.foldl max d

/-- Model of `Series.min` on an integer date column (0 on an empty column; the code
only evaluates it on nonempty groups). -/
def minDate : List Int → Int
  | [] => 0
  | d :: ds => ds.foldl min d

/-- One customer row of the growing result frame.  The first six fields are
produced by `calculate_rfm`; every later pipeline stage adds columns, which
start out as `none`. -/
structure Row where
  customer_id : Nat
  recency : Int
  frequency : Nat
  monetary_sum : ℚ
  monetary_avg : ℚ
  T : Int
  R_score : Option Nat := none
  F_score : Option Nat := none
  M_score : Option Nat := none
  RFM_Score : Option String := none
  Customer_Segment : Option String := none
  predicted_transactions : Option ℚ := none
  clv : Option ℚ := none
  clv_segment : Option String := none
deriving DecidableEq

/-- Insert into an ascending list (helper for the sorted group keys that
`DataFrame.groupby` produces). -/
def insertAsc {α : Type} [LE α] [DecidableRel (fun a b : α => a ≤ b)] (x : α) :
    List α → List α
  | [] => [x]
  | a :: l => if x ≤ a then x :: a :: l else a :: insertAsc x l

/-- Insertion sort (ascending), modelling the sorted key order of
`DataFrame.groupby`. -/
def sortAsc {α : Type} [LE α] [DecidableRel (fun a b : α => a ≤ b)]
    (l : List α) : List α :=
  l.foldr insertAsc []

/-- The group keys of `transactions.groupby('customer_id')`: the distinct
customer ids, in ascending order. -/
def customerIds (ts : List Transaction) : List Nat :=
  sortAsc ((ts.map (fun t => t.customer_id)).dedup)

/-- The group of a single customer id: the rows of `transactions` carrying
that id. -/
def transFor (ts : List Transaction) (cid : Nat) : List Transaction :=
  ts.filter (fun t => t.customer_id == cid)

/-- Model of `RFMCalculator.calculate_rfm`: per customer, recency
`(analysis_date - x.max()).days`, frequency `count`, monetary `sum` and
`mean`, and `T = (analysis_date - first_purchase).days`; when
`analysis_date` is `none` it defaults to
`transactions['transaction_date'].max() + 1 day`. -/
def calculate_rfm (transactions : List Transaction) (analysis_date : Option Int) :
    List Row :=
  let d := match analysis_date with
    | some d => d
    | none => maxDate (transactions.map (fun t => t.transaction_date)) + 1
  (customerIds transactions).map (fun cid =>
    let g := transFor transactions cid
    let dates := g.map (fun t => t.transaction_date)
    { customer_id := cid
      recency := d - maxDate dates
      frequency := g.length
      monetary_sum := (g.map (fun t => t.amount)).sum
      monetary_avg := (g.map (fun t => t.amount)).sum / (g.length : ℚ)
      T := d - minDate dates })

/-- The three-customer scenario of the spec: customer 1 buys on days 0 and 14
(amounts 100, 200), customer 2 on day 19 (150), customer 3 on days 0, 9
and 31 (300, 400, 500). -/
def scenarioTransactions : List Transaction :=
  [⟨1, 0, 100⟩, ⟨1, 14, 200⟩, ⟨2, 19, 150⟩, ⟨3, 0, 300⟩, ⟨3, 9, 400⟩, ⟨3, 31, 500⟩]

/-- Scenario output row of customer 1 for analysis day 45. -/
def scRow1 : Row :=
  { customer_id := 1, recency := 31, frequency := 2, monetary_sum := 300,
    monetary_avg := 150, T := 45 }

/-- Scenario output row of customer 2 for analysis day 45. -/
def scRow2 : Row :=
  { customer_id := 2, recency := 26, frequency := 1, monetary_sum := 150,
    monetary_avg := 150, T := 26 }

/-- Scenario output row of customer 3 for analysis day 45. -/
def scRow3 : Row :=
  { customer_id := 3, recency := 14, frequency := 3, monetary_sum := 1200,
    monetary_avg := 400, T := 45 }

theorem scenario_ids : customerIds scenarioTransactions = [1, 2, 3] := by
  decide

theorem scenario_group1 :
    transFor scenarioTransactions 1 = [⟨1, 0, 100⟩, ⟨1, 14, 200⟩] := by
  decide

theorem scenario_group2 : transFor scenarioTransactions 2 = [⟨2, 19, 150⟩] := by
  decide

theorem scenario_group3 :
    transFor scenarioTransactions 3 = [⟨3, 0, 300⟩, ⟨3, 9, 400⟩, ⟨3, 31, 500⟩] := by
  decide

theorem scenario_rfm_eval :
    calculate_rfm scenarioTransactions (some 45) = [scRow1, scRow2, scRow3] := by
  simp only [calculate_rfm, scenario_ids, List.map_cons, List.map_nil,
    scenario_group1, scenario_group2, scenario_group3]
  norm_num [maxDate, minDate, scRow1, scRow2, scRow3]

/-- C1: in the three-customer scenario with analysis day 45, `calculate_rfm`
gives customer 1 frequency 2, monetary_sum 300, monetary_avg 150,
recency 45 − 14 = 31 and T = 45 − 0 = 45, and customer 3 frequency 3,
monetary_sum 1200 and monetary_avg 400. -/
theorem c1_scenario_rfm :
    (calculate_rfm scenarioTransactions (some 45)).filter
        (fun r => r.customer_id == 1) =
      [{ customer_id := 1, recency := 31, frequency := 2, monetary_sum := 300,
         monetary_avg := 150, T := 45 }] ∧
    (calculate_rfm scenarioTransactions (some 45)).filter
        (fun r => r.customer_id == 3) =
      [{ customer_id := 3, recency := 14, frequency := 3, monetary_sum := 1200,
         monetary_avg := 400, T := 45 }] := by
  rw [scenario_rfm_eval]
  decide

/-- The Python exception kinds the pipeline can surface.  `valueError` and
`keyError` model the exceptions actually raised in
`src/features/clv_calculator.py` and by pandas; `sequencingError` models the
typed out-of-order-call error that the spec taxonomy demands — nothing in
the code ever raises it. -/
inductive PipelineError where
  | valueError (msg : String)
  | keyError (key : String)
  | sequencingError (msg : String)
deriving DecidableEq

/-- Whether an error is the spec taxonomy's typed out-of-order-call error. -/
def PipelineError.isSequencing : PipelineError → Bool
  | PipelineError.sequencingError _ => true
  | _ => false

/-- Model of `pd.cut(x, bins=[b0,b1,b2,b3,inf], labels=[l1,l2,l3,l4])` with the default
`right=True` and no `include_lowest`: the bins are the left-open right-closed
intervals `(b0,b1], (b1,b2], (b2,b3], (b3,∞)`, and a value `x ≤ b0` falls in
no bin, i.e. gets `NaN` (`none`). -/
def cut4 (b0 b1 b2 b3 : ℚ) (l1 l2 l3 l4 : Nat) (x : ℚ) : Option Nat :=
  if x ≤ b0 then none
  else if x ≤ b1 then some l1
  else if x ≤ b2 then some l2
  else if x ≤ b3 then some l3
  else some l4

/-- Model of `Series.astype(str)` on one categorical score cell: a `NaN` cell prints
as `"nan"`. -/
def scoreStr : Option Nat → String
  | some n => toString n
  | none => "nan"

/-- Writing the three score columns and the concatenated `RFM_Score` column
(`rfm['R_score'].astype(str) + rfm['F_score'].astype(str) +
rfm['M_score'].astype(str)`) into a row. -/
def setScores (r : Row) (rs fs ms : Option Nat) : Row :=
  { r with
    R_score := rs
    F_score := fs
    M_score := ms
    RFM_Score := some (scoreStr rs ++ scoreStr fs ++ scoreStr ms) }

/-- The linear-interpolation quantile that `pd.qcut` uses: on the sorted
sample `s` of size `n`, quantile `p` sits at rank `h = p⬝(n−1)`,
interpolated between the neighbouring order statistics. -/
def quantile (s : List ℚ) (p : ℚ) : ℚ :=
  match s with
  | [] => 0
  | _ :: _ =>
    let n := s.length
    let h := p * ((n : ℚ) - 1)
    let i := (⌊h⌋).toNat
    let g := h - ((⌊h⌋ : ℤ) : ℚ)
    let a := s.getD i 0
    let b := s.getD (i + 1) a
    a + g * (b - a)

/-- Model of `pd.qcut(xs, q=4)`: quartile edges by linear interpolation over the
sorted data; duplicate edges raise `ValueError` (the default
`duplicates='raise'`); otherwise each value is assigned the index (0–3) of
its quartile bin, the first bin including the lowest value. -/
def qcutBin (xs : List ℚ) : Except PipelineError (ℚ → Nat) :=
  let s := sortAsc xs
  let e0 := quantile s 0
  let e1 := quantile s (1 / 4)
  let e2 := quantile s (1 / 2)
  let e3 := quantile s (3 / 4)
  let e4 := quantile s 1
  if e0 = e1 ∨ e1 = e2 ∨ e2 = e3 ∨ e3 = e4 then
    Except.error (PipelineError.valueError "Bin edges must be unique")
  else
    Except.ok (fun x => if x ≤ e1 then 0 else if x ≤ e2 then 1 else if x ≤ e3 then 2 else 3)

/-- The fixed-break branch of `add_rfm_scores` applied to one row:
`pd.cut` on recency with bins `[0,7,30,90,inf]` and labels `[4,3,2,1]`, on
frequency with bins `[0,2,5,10,inf]` and labels `[1,2,3,4]`, and on
monetary_avg with bins `[0,100,250,500,inf]` and labels `[1,2,3,4]`. -/
def fixedScore (r : Row) : Row :=
  setScores r
    (cut4 0 7 30 90 4 3 2 1 (r.recency : ℚ))
    (cut4 0 2 5 10 1 2 3 4 (r.frequency : ℚ))
    (cut4 0 100 250 500 1 2 3 4 r.monetary_avg)

/-- Model of `RFMCalculator.add_rfm_scores`: in quartile mode, `pd.qcut` each of
recency (labels 4…1), frequency and monetary_avg (labels 1…4); in
fixed-break mode, `pd.cut` with the hard-coded bins; then concatenate
`RFM_Score`. -/
def add_rfm_scores (rfm : List Row) (quartiles : Bool) :
    Except PipelineError (List Row) :=
  if quartiles then
    match qcutBin (rfm.map (fun r => (r.recency : ℚ))),
          qcutBin (rfm.map (fun r => (r.frequency : ℚ))),
          qcutBin (rfm.map (fun r => r.monetary_avg)) with
    | Except.ok rBin, Except.ok fBin, Except.ok mBin =>
        Except.ok (rfm.map (fun r => setScores r
          (some (4 - rBin (r.recency : ℚ)))
          (some (1 + fBin (r.frequency : ℚ)))
          (some (1 + mBin r.monetary_avg))))
    | Except.error e, _, _ => Except.error e
    | _, Except.error e, _ => Except.error e
    | _, _, Except.error e => Except.error e
  else
    Except.ok (rfm.map fixedScore)

/-- Model of `segment_customer` from `RFMCalculator.get_customer_segment`: the
first-match chain over `(RFM_Score, R_score, F_score, M_score)`. -/
def segment_customer (rfm_score : String)
    (r_score f_score m_score : Option Nat) : String :=
  if rfm_score = "444" ∨ rfm_score = "434" ∨ rfm_score = "443" ∨ rfm_score = "433" then
    "Best Customers"
  else if r_score = some 4 then "Recent Customers"
  else if f_score = some 4 then "Loyal Customers"
  else if m_score = some 4 then "Big Spenders"
  else if r_score = some 1 then "Lost Customers"
  else "Average Customers"

/-- Model of `RFMCalculator.get_customer_segment`: `rfm.apply(segment_customer,
axis=1)` written into the `Customer_Segment` column.  On the rows this
pipeline produces the `RFM_Score` column is always present; the `getD`
default only pads the total function. -/
def get_customer_segment (rfm : List Row) : List Row :=
  rfm.map (fun r =>
    { r with
      Customer_Segment := some (segment_customer (r.RFM_Score.getD "nan")
        r.R_score r.F_score r.M_score) })

/-- The fitted BG/NBD purchase-frequency model of the external `lifetimes`
library: only its interface is modelled — `predict(t, frequency, recency,
T)` is an abstract function of its arguments. -/
structure BetaGeoFitter where
  penalizer_coef : ℚ
  predict : ℚ → ℚ → ℚ → ℚ → ℚ

/-- The fitted Gamma-Gamma monetary model of the `lifetimes` library:
`customer_lifetime_value(bgf, frequency, recency, T, monetary_avg, time,
discount_rate)` is an abstract function of its arguments. -/
structure GammaGammaFitter where
  penalizer_coef : ℚ
  customer_lifetime_value : BetaGeoFitter → ℚ → ℚ → ℚ → ℚ → ℚ → ℚ → ℚ

/-- Model of `CLVCalculator`: holds the two optional fitted models. -/
structure CLVCalculator where
  bgf_model : Option BetaGeoFitter
  ggf_model : Option GammaGammaFitter

/-- Model of `CLVCalculator.__init__`: both models start as `None`. -/
def CLVCalculator.init : CLVCalculator :=
  { bgf_model := none, ggf_model := none }

/-- The `mask = rfm['frequency'] > 0` filter of `CLVCalculator.fit_models`:
the rows the Gamma-Gamma model is fit on. -/
def ggfFitRows (rfm : List Row) : List Row :=
  rfm.filter (fun r => 0 < r.frequency)

/-- Model of `CLVCalculator.fit_models`: fit the BG/NBD model on (frequency, recency,
T) of every row and the Gamma-Gamma model on (frequency, monetary_avg) of
the rows with positive frequency, and store both.  The `lifetimes` fitting
procedures themselves are external to the repository, so they are passed in
as abstract functions from penalizer and data to a fitted model. -/
def fit_models (c : CLVCalculator)
    (betaGeoFit : ℚ → List (ℚ × ℚ × ℚ) → BetaGeoFitter)
    (gammaGammaFit : ℚ → List (ℚ × ℚ) → GammaGammaFitter)
    (penalizer_coef : ℚ) (rfm : List Row) : CLVCalculator :=
  let bgf := betaGeoFit penalizer_coef
    (rfm.map (fun r => ((r.frequency : ℚ), (r.recency : ℚ), (r.T : ℚ))))
  let ggf := gammaGammaFit penalizer_coef
    ((ggfFitRows rfm).map (fun r => ((r.frequency : ℚ), r.monetary_avg)))
  { c with bgf_model := some bgf, ggf_model := some ggf }

/-- Model of `CLVCalculator.predict_clv`: raise
`ValueError("Models must be fit before predicting CLV")` when either model
is `None`; otherwise write the `predicted_transactions` and `clv` columns
from the two fitted models. -/
def predict_clv (c : CLVCalculator) (time_period discount_rate : ℚ)
    (rfm : List Row) : Except PipelineError (List Row) :=
  match c.bgf_model, c.ggf_model with
  | some bgf, some ggf =>
      Except.ok (rfm.map (fun r =>
        { r with
          predicted_transactions := some (bgf.predict time_period
            (r.frequency : ℚ) (r.recency : ℚ) (r.T : ℚ))
          clv := some (ggf.customer_lifetime_value bgf (r.frequency : ℚ)
            (r.recency : ℚ) (r.T : ℚ) r.monetary_avg time_period discount_rate) }))
  | _, _ =>
      Except.error (PipelineError.valueError "Models must be fit before predicting CLV")

/-- Model of `CLVCalculator.get_clv_segments`: `pd.qcut(rfm['clv'], q=4,
labels=['Low Value','Medium Value','High Value','Top Value'])` written into
the `clv_segment` column.  Reading `rfm['clv']` raises `KeyError` when the
column is absent (some row has no `clv` value). -/
def get_clv_segments (rfm : List Row) : Except PipelineError (List Row) :=
  match rfm.mapM (fun r => r.clv) with
  | none => Except.error (PipelineError.keyError "clv")
  | some clvs =>
    match qcutBin clvs with
    | Except.error e => Except.error e
    | Except.ok bin =>
        Except.ok (rfm.map (fun r =>
          { r with
            clv_segment := some (["Low Value", "Medium Value", "High Value",
              "Top Value"].getD (bin (r.clv.getD 0)) "") }))

/-- Model of `Series.min` on a rational column (0 on an empty column). -/
def minQ : List ℚ → ℚ
  | [] => 0
  | a :: l => l.foldl min a

/-- Model of `Series.max` on a rational column (0 on an empty column). -/
def maxQ : List ℚ → ℚ
  | [] => 0
  | a :: l => l.foldl max a

/-- The distinct values of a string column, in order of first appearance
(the group keys of `groupby('clv_segment')`; their order is immaterial to
everything proved here). -/
def uniqueKeys (l : List String) : List String :=
  l.foldl (fun acc k => if k ∈ acc then acc else acc ++ [k]) []

/-- One row of the `get_clv_summary` aggregate: per `clv_segment`,
count/mean/min/max/sum of `clv`, mean `frequency`, mean `monetary_avg`, and
the percentage share of the total summed `clv`. -/
structure CLVSummaryRow where
  clv_segment : String
  clv_count : Nat
  clv_mean : ℚ
  clv_min : ℚ
  clv_max : ℚ
  clv_sum : ℚ
  frequency_mean : ℚ
  monetary_avg_mean : ℚ
  clv_percentage : ℚ
deriving DecidableEq

/-- Model of `CLVCalculator.get_clv_summary`: `groupby('clv_segment')` aggregation of
clv (count/mean/min/max/sum), mean frequency and mean monetary_avg, then a
percentage column `sum / sum.sum() * 100` computed from the summary's own
sum column.  Accessing the `clv_segment` or `clv` columns raises `KeyError`
when absent. -/
def get_clv_summary (rfm : List Row) : Except PipelineError (List CLVSummaryRow) :=
  match rfm.mapM (fun r => r.clv_segment) with
  | none => Except.error (PipelineError.keyError "clv_segment")
  | some _ =>
    match rfm.mapM (fun r => r.clv) with
    | none => Except.error (PipelineError.keyError "clv")
    | some _ =>
      let summary : List CLVSummaryRow :=
        (uniqueKeys (rfm.filterMap (fun r => r.clv_segment))).map
        (fun k =>
          let g := rfm.filter (fun r => r.clv_segment == some k)
          let clvs := g.filterMap (fun r => r.clv)
          { clv_segment := k
            clv_count := clvs.length
            clv_mean := clvs.sum / (clvs.length : ℚ)
            clv_min := minQ clvs
            clv_max := maxQ clvs
            clv_sum := clvs.sum
            frequency_mean := (g.map (fun r => (r.frequency : ℚ))).sum / (g.length : ℚ)
            monetary_avg_mean := (g.map (fun r => r.monetary_avg)).sum / (g.length : ℚ)
            clv_percentage := 0 })
      let total := (summary.map (fun s => s.clv_sum)).sum
      Except.ok (summary.map (fun s =>
        { s with clv_percentage := s.clv_sum / total * 100 }))

theorem foldl_min_le (l : List Int) : ∀ x : Int, l.foldl min x ≤ x := by
  induction l with
  | nil => intro x; simp
  | cons a l ih =>
    intro x
    simpa using le_trans (ih (min x a)) (min_le_left x a)

theorem le_foldl_max (l : List Int) : ∀ x : Int, x ≤ l.foldl max x := by
  induction l with
  | nil => intro x; simp
  | cons a l ih =>
    intro x
    simpa using le_trans (le_max_left x a) (ih (max x a))

theorem mem_le_foldl_max {d : Int} : ∀ (l : List Int) (x : Int), d ∈ l → d ≤ l.foldl max x := by
  intro l
  induction l with
  | nil => intro x h; simp at h
  | cons a l ih =>
    intro x h
    rcases List.mem_cons.mp h with rfl | hd
    · simpa using le_trans (le_max_right x d) (le_foldl_max l (max x d))
    · simpa using ih (max x a) hd

theorem foldl_max_le {b : Int} : ∀ (l : List Int) (x : Int), x ≤ b → (∀ d ∈ l, d ≤ b) → l.foldl max x ≤ b := by
  intro l
  induction l with
  | nil => intro x hx _; simpa using hx
  | cons a l ih =>
    intro x hx h
    simp only [List.foldl_cons]
    exact ih (max x a) (max_le hx (h a (by simp))) (fun d hd => h d (by simp [hd]))

theorem minDate_le_maxDate {ds : List Int} (h : ds ≠ []) : minDate ds ≤ maxDate ds := by
  cases ds with
  | nil => exact absurd rfl h
  | cons a l =>
    exact le_trans (foldl_min_le l a) (le_foldl_max l a)

theorem le_maxDate {d : Int} {ds : List Int} (h : d ∈ ds) : d ≤ maxDate ds := by
  cases ds with
  | nil => simp at h
  | cons a l =>
    rcases List.mem_cons.mp h with rfl | hd
    · exact le_foldl_max l d
    · exact mem_le_foldl_max l a hd

theorem maxDate_le {ds : List Int} {b : Int} (hne : ds ≠ []) (hb : ∀ d ∈ ds, d ≤ b) :
    maxDate ds ≤ b := by
  cases ds with
  | nil => exact absurd rfl hne
  | cons a l =>
    exact foldl_max_le l a (hb a (by simp)) (fun d hd => hb d (by simp [hd]))

theorem mem_insertAsc {α : Type} [LE α] [DecidableRel (fun a b : α => a ≤ b)]
    {y x : α} : ∀ {l : List α}, y ∈ insertAsc x l ↔ y = x ∨ y ∈ l := by
  intro l
  induction l with
  | nil => simp [insertAsc]
  | cons a l ih =>
    simp only [insertAsc]
    split
    · simp
    · simp only [List.mem_cons, ih]
      tauto

theorem mem_sortAsc {α : Type} [LE α] [DecidableRel (fun a b : α => a ≤ b)]
    {y : α} : ∀ {l : List α}, y ∈ sortAsc l ↔ y ∈ l := by
  intro l
  induction l with
  | nil => simp [sortAsc]
  | cons a l ih =>
    simp only [sortAsc, List.foldr_cons] at *
    rw [mem_insertAsc, ih, List.mem_cons]

theorem mem_customerIds {ts : List Transaction} {cid : Nat} :
    cid ∈ customerIds ts ↔ ∃ t ∈ ts, t.customer_id = cid := by
  simp [customerIds, mem_sortAsc, List.mem_dedup, List.mem_map]

theorem transFor_ne_nil {ts : List Transaction} {cid : Nat}
    (h : cid ∈ customerIds ts) : transFor ts cid ≠ [] := by
  rw [mem_customerIds] at h
  obtain ⟨t, ht, hcid⟩ := h
  have hmem : t ∈ transFor ts cid := by simp [transFor, ht, hcid]
  intro hnil
  rw [hnil] at hmem
  exact absurd hmem (List.not_mem_nil t)

/-- C3: every row of `calculate_rfm` satisfies `recency ≤ T` — for any
transaction list and any analysis date, a customer's last purchase is no
earlier than its first, so `analysis_date − max(date) ≤
analysis_date − min(date)`. -/
theorem c3_recency_le_T (ts : List Transaction) (ad : Option Int) (r : Row)
    (hr : r ∈ calculate_rfm ts ad) : r.recency ≤ r.T := by
  simp only [calculate_rfm, List.mem_map] at hr
  obtain ⟨cid, hcid, hreq⟩ := hr
  subst hreq
  have hne : (transFor ts cid).map (fun t => t.transaction_date) ≠ [] := by
    simpa using transFor_ne_nil hcid
  have hmm := minDate_le_maxDate hne
  simp only
  omega

theorem c3_witness : scRow1.recency ≤ scRow1.T :=
  c3_recency_le_T scenarioTransactions (some 45) scRow1
    (by simp [scenario_rfm_eval])

theorem scenario_all_dates_max :
    maxDate (scenarioTransactions.map (fun t => t.transaction_date)) = 31 := by
  decide

/-- Scenario output row of customer 1 for the default analysis date 31+1. -/
def scRowD1 : Row :=
  { customer_id := 1, recency := 18, frequency := 2, monetary_sum := 300,
    monetary_avg := 150, T := 32 }

/-- Scenario output row of customer 2 for the default analysis date 31+1. -/
def scRowD2 : Row :=
  { customer_id := 2, recency := 13, frequency := 1, monetary_sum := 150,
    monetary_avg := 150, T := 13 }

/-- Scenario output row of customer 3 for the default analysis date 31+1. -/
def scRowD3 : Row :=
  { customer_id := 3, recency := 1, frequency := 3, monetary_sum := 1200,
    monetary_avg := 400, T := 32 }

theorem scenario_rfm_default_eval :
    calculate_rfm scenarioTransactions none = [scRowD1, scRowD2, scRowD3] := by
  simp only [calculate_rfm, scenario_ids, scenario_all_dates_max, List.map_cons,
    List.map_nil, scenario_group1, scenario_group2, scenario_group3]
  norm_num [maxDate, minDate, scRowD1, scRowD2, scRowD3]

/-- C7: with `analysis_date` omitted, `calculate_rfm` uses
`max(transaction_date) + 1` as the analysis date, and consequently every
output row has `recency ≥ 0`. -/
theorem c7_default_analysis_date (ts : List Transaction) (h : ts ≠ []) :
    calculate_rfm ts none =
      calculate_rfm ts
        (some (maxDate (ts.map (fun t => t.transaction_date)) + 1)) ∧
    ∀ r ∈ calculate_rfm ts none, 0 ≤ r.recency := by
  constructor
  · rfl
  · intro r hr
    simp only [calculate_rfm, List.mem_map] at hr
    obtain ⟨cid, hcid, hreq⟩ := hr
    subst hreq
    have hne : (transFor ts cid).map (fun t => t.transaction_date) ≠ [] := by
      simpa using transFor_ne_nil hcid
    have hb : ∀ d ∈ (transFor ts cid).map (fun t => t.transaction_date),
        d ≤ maxDate (ts.map (fun t => t.transaction_date)) := by
      intro d hd
      rcases List.mem_map.mp hd with ⟨t, ht, rfl⟩
      have hts : t ∈ ts := (List.mem_filter.mp ht).1
      exact le_maxDate (List.mem_map_of_mem _ hts)
    have := maxDate_le hne hb
    simp only
    omega

theorem c7_witness :
    (calculate_rfm scenarioTransactions none =
      calculate_rfm scenarioTransactions
        (some (maxDate (scenarioTransactions.map (fun t => t.transaction_date)) + 1))) ∧
    (0 : Int) ≤ scRowD3.recency :=
  ⟨(c7_default_analysis_date scenarioTransactions (by decide)).1,
   (c7_default_analysis_date scenarioTransactions (by decide)).2 scRowD3
     (by simp [scenario_rfm_default_eval])⟩

/-- C9: every row `calculate_rfm` produces has `frequency ≥ 1` (a customer
appears in the output exactly when it has at least one transaction), so the
`frequency > 0` mask of `fit_models` keeps every row. -/
theorem c9_frequency_pos (ts : List Transaction) (ad : Option Int) :
    (∀ r ∈ calculate_rfm ts ad, 1 ≤ r.frequency) ∧
    ggfFitRows (calculate_rfm ts ad) = calculate_rfm ts ad ∧
    ∀ cid : Nat, (cid ∈ (calculate_rfm ts ad).map (fun r => r.customer_id) ↔
      ∃ t ∈ ts, t.customer_id = cid) := by
  have hfreq : ∀ r ∈ calculate_rfm ts ad, 1 ≤ r.frequency := by
    intro r hr
    simp only [calculate_rfm, List.mem_map] at hr
    obtain ⟨cid, hcid, hreq⟩ := hr
    subst hreq
    have hne := transFor_ne_nil hcid
    simp only
    cases hg : transFor ts cid with
    | nil => exact absurd hg hne
    | cons a l => simp [hg]
  refine ⟨hfreq, ?_, ?_⟩
  · rw [ggfFitRows, List.filter_eq_self]
    intro r hr
    have h1 := hfreq r hr
    simp only [decide_eq_true_eq]
    omega
  · intro cid
    have hmap : (calculate_rfm ts ad).map (fun r => r.customer_id) =
        customerIds ts := by
      simp only [calculate_rfm, List.map_map]
      exact List.map_id _
    rw [hmap]
    exact mem_customerIds

theorem c9_witness :
    1 ≤ scRow1.frequency ∧
    ggfFitRows (calculate_rfm scenarioTransactions (some 45)) =
      calculate_rfm scenarioTransactions (some 45) ∧
    ((1 : Nat) ∈ (calculate_rfm scenarioTransactions (some 45)).map
        (fun r => r.customer_id) ↔
      ∃ t ∈ scenarioTransactions, t.customer_id = 1) :=
  ⟨(c9_frequency_pos scenarioTransactions (some 45)).1 scRow1
      (by simp [scenario_rfm_eval]),
   (c9_frequency_pos scenarioTransactions (some 45)).2.1,
   (c9_frequency_pos scenarioTransactions (some 45)).2.2 1⟩

/-- The ordered (predicate, label) rules of spec section 4.1, stated as data
so that the first-match semantics is explicit; the argument tuple is
`(RFM_Score, R_score, F_score, M_score)`. -/
def specSegmentRules :
    List ((String × Option Nat × Option Nat × Option Nat → Bool) × String) :=
  [(fun x => decide (x.1 = "444" ∨ x.1 = "434" ∨ x.1 = "443" ∨ x.1 = "433"),
    "Best Customers"),
   (fun x => x.2.1 == some 4, "Recent Customers"),
   (fun x => x.2.2.1 == some 4, "Loyal Customers"),
   (fun x => x.2.2.2 == some 4, "Big Spenders"),
   (fun x => x.2.1 == some 1, "Lost Customers")]

/-- First-match evaluation of an ordered rule list, with a catch-all
default label. -/
def firstMatch {α : Type} (rules : List ((α → Bool) × String)) (dflt : String)
    (x : α) : String :=
  match rules with
  | [] => dflt
  | (p, lab) :: rest => if p x then lab else firstMatch rest dflt x

/-- C2: `segment_customer` is exactly the first-match evaluation of the
fixed rule order of spec section 4.1 with default "Average Customers", its
value is always one of the six segment names, and `get_customer_segment`
writes exactly one segment per record, determined solely by
`(RFM_Score, R_score, F_score, M_score)`. -/
theorem c2_segment_partition :
    ∀ (s : String) (rs fs ms : Option Nat),
      segment_customer s rs fs ms =
        firstMatch specSegmentRules "Average Customers" (s, rs, fs, ms) ∧
      segment_customer s rs fs ms ∈
        ["Best Customers", "Recent Customers", "Loyal Customers",
         "Big Spenders", "Lost Customers", "Average Customers"] ∧
      ∀ rfm : List Row,
        (get_customer_segment rfm).map (fun r => r.Customer_Segment) =
          rfm.map (fun r => some (segment_customer (r.RFM_Score.getD "nan")
            r.R_score r.F_score r.M_score)) := by
  intro s rs fs ms
  refine ⟨?_, ?_, ?_⟩
  · simp only [segment_customer, firstMatch, specSegmentRules,
      decide_eq_true_eq, beq_iff_eq]
  · simp only [segment_customer]
    split_ifs <;> simp
  · intro rfm
    simp only [get_customer_segment, List.map_map]
    rfl

/-- C4: calling `predict_clv` on a freshly constructed `CLVCalculator`
(no prior `fit_models`) yields exactly the
`ValueError("Models must be fit before predicting CLV")` and never an `ok`
result, for every input table. -/
theorem c4_predict_requires_fit (t d : ℚ) (rfm : List Row) :
    predict_clv CLVCalculator.init t d rfm =
      Except.error
        (PipelineError.valueError "Models must be fit before predicting CLV") ∧
    ∀ out : List Row, predict_clv CLVCalculator.init t d rfm ≠ Except.ok out := by
  constructor
  · rfl
  · intro out h
    simp [predict_clv, CLVCalculator.init] at h

theorem c4_witness :
    predict_clv CLVCalculator.init 1 0 [] =
      Except.error
        (PipelineError.valueError "Models must be fit before predicting CLV") :=
  (c4_predict_requires_fit 1 0 []).1

theorem c5_counterexample :
    get_clv_segments [scRow1] = Except.error (PipelineError.keyError "clv") ∧
    (PipelineError.keyError "clv").isSequencing = false := by
  constructor
  · rfl
  · rfl

/-- C5 (amended): calling `get_clv_segments` before a successful
`predict_clv` does fail — the `clv` column is absent, so reading
`rfm['clv']` raises — but the error is pandas' incidental missing-column
`KeyError("clv")`, not a typed sequencing error. -/
theorem c5_amended_missing_clv (rfm : List Row)
    (h : rfm.mapM (fun r => r.clv) = none) :
    get_clv_segments rfm = Except.error (PipelineError.keyError "clv") := by
  unfold get_clv_segments
  rw [h]

theorem c5_witness :
    get_clv_segments [scRow2] = Except.error (PipelineError.keyError "clv") :=
  c5_amended_missing_clv [scRow2] (by rfl)

/-- A customer whose last purchase happened on the analysis date itself:
recency is exactly 0, the lowest edge of the fixed recency bins. -/
def c6row : Row :=
  { customer_id := 7, recency := 0, frequency := 1, monetary_sum := 50,
    monetary_avg := 50, T := 0 }

/-- What the fixed-break scoring actually produces for `c6row`: recency 0 is
outside every right-closed bin, so `R_score` is `NaN` and `RFM_Score` prints
as "nan11". -/
def c6rowOut : Row :=
  { c6row with
    R_score := none, F_score := some 1, M_score := some 1,
    RFM_Score := some "nan11" }

theorem add_rfm_scores_c6row_eval :
    add_rfm_scores [c6row] false = Except.ok [c6rowOut] := by
  norm_num [add_rfm_scores, fixedScore, setScores, cut4, scoreStr, c6row, c6rowOut]
  rfl

theorem c6_counterexample :
    add_rfm_scores [c6row] false = Except.ok [c6rowOut] ∧
    c6rowOut.R_score = none := by
  exact ⟨add_rfm_scores_c6row_eval, rfl⟩

/-- C6 (amended): in fixed-break mode `add_rfm_scores` scores every row by
`pd.cut` over right-closed bins — recency `(0,7] → 4`, `(7,30] → 3`,
`(30,90] → 2`, `(90,∞) → 1`, and frequency/monetary_avg analogously with
labels 1…4 — so every customer whose metric values are strictly positive
receives scores in {1,2,3,4}, while a value equal to the lowest edge (such
as recency 0) receives no score (`NaN`). -/
theorem c6_amended_fixed_breaks :
    (∀ rfm : List Row, add_rfm_scores rfm false = Except.ok (rfm.map fixedScore)) ∧
    (∀ x : ℚ, x ≤ 0 → cut4 0 7 30 90 4 3 2 1 x = none) ∧
    (∀ x : ℚ, 0 < x → x ≤ 7 → cut4 0 7 30 90 4 3 2 1 x = some 4) ∧
    (∀ x : ℚ, 7 < x → x ≤ 30 → cut4 0 7 30 90 4 3 2 1 x = some 3) ∧
    (∀ x : ℚ, 30 < x → x ≤ 90 → cut4 0 7 30 90 4 3 2 1 x = some 2) ∧
    (∀ x : ℚ, 90 < x → cut4 0 7 30 90 4 3 2 1 x = some 1) ∧
    (∀ x : ℚ, 0 < x → ∃ k, cut4 0 2 5 10 1 2 3 4 x = some k ∧ 1 ≤ k ∧ k ≤ 4) ∧
    (∀ x : ℚ, 0 < x → ∃ k, cut4 0 100 250 500 1 2 3 4 x = some k ∧ 1 ≤ k ∧ k ≤ 4) := by
  refine ⟨fun rfm => rfl, ?_, ?_, ?_, ?_, ?_, ?_, ?_⟩
  · intro x hx
    simp [cut4, hx]
  · intro x h1 h2
    simp [cut4, h2, not_le.mpr h1]
  · intro x h1 h2
    simp [cut4, h2, not_le.mpr h1, (by linarith : ¬ x ≤ 0)]
  · intro x h1 h2
    simp [cut4, h2, not_le.mpr h1, (by linarith : ¬ x ≤ 0), (by linarith : ¬ x ≤ 7)]
  · intro x h1
    simp [cut4, not_le.mpr h1, (by linarith : ¬ x ≤ 0), (by linarith : ¬ x ≤ 7),
      (by linarith : ¬ x ≤ 30)]
  · intro x hx
    simp only [cut4]
    split_ifs with h1 h2 h3 h4
    · linarith
    · exact ⟨1, rfl, by omega⟩
    · exact ⟨2, rfl, by omega⟩
    · exact ⟨3, rfl, by omega⟩
    · exact ⟨4, rfl, by omega⟩
  · intro x hx
    simp only [cut4]
    split_ifs with h1 h2 h3 h4
    · linarith
    · exact ⟨1, rfl, by omega⟩
    · exact ⟨2, rfl, by omega⟩
    · exact ⟨3, rfl, by omega⟩
    · exact ⟨4, rfl, by omega⟩

theorem c6_witness :
    add_rfm_scores [] false = Except.ok [] ∧
    cut4 0 7 30 90 4 3 2 1 5 = some 4 ∧
    (∃ k, cut4 0 2 5 10 1 2 3 4 3 = some k ∧ 1 ≤ k ∧ k ≤ 4) :=
  ⟨c6_amended_fixed_breaks.1 [],
   c6_amended_fixed_breaks.2.2.1 5 (by decide) (by decide),
   c6_amended_fixed_breaks.2.2.2.2.2.2.1 3 (by decide)⟩

theorem sum_map_div_mul (l : List ℚ) (t c : ℚ) :
    (l.map (fun x => x / t * c)).sum = l.sum / t * c := by
  induction l with
  | nil => simp
  | cons a l ih =>
    simp only [List.map_cons, List.sum_cons, ih]
    ring

theorem clv_percentage_sum (S : List CLVSummaryRow)
    (hT : ((S.map (fun s =>
        { s with clv_percentage :=
            s.clv_sum / (S.map (fun s => s.clv_sum)).sum * 100 })).map
        (fun s : CLVSummaryRow => s.clv_sum)).sum ≠ 0) :
    ((S.map (fun s =>
        { s with clv_percentage :=
            s.clv_sum / (S.map (fun s => s.clv_sum)).sum * 100 })).map
        (fun s : CLVSummaryRow => s.clv_percentage)).sum = 100 := by
  rw [List.map_map] at hT ⊢
  have e1 : (S.map ((fun s => s.clv_sum) ∘ (fun s =>
      ({ s with clv_percentage :=
          s.clv_sum / (S.map (fun s => s.clv_sum)).sum * 100 } : CLVSummaryRow)))) =
      S.map (fun s => s.clv_sum) := rfl
  rw [e1] at hT
  have e2 : (S.map ((fun s => s.clv_percentage) ∘ (fun s =>
      ({ s with clv_percentage :=
          s.clv_sum / (S.map (fun s => s.clv_sum)).sum * 100 } : CLVSummaryRow)))) =
      (S.map (fun s => s.clv_sum)).map
        (fun x => x / (S.map (fun s => s.clv_sum)).sum * 100) := by
    rw [List.map_map]
    rfl
  rw [e2, sum_map_div_mul, div_self hT]
  norm_num

/-- C8: whenever `get_clv_summary` succeeds and the total summed clv over
its rows is nonzero, the per-segment percentage shares it computes sum to
exactly 100 (over exact rational arithmetic). -/
theorem c8_percentages_sum_100 (rfm : List Row) (out : List CLVSummaryRow)
    (h : get_clv_summary rfm = Except.ok out)
    (hT : (out.map (fun s => s.clv_sum)).sum ≠ 0) :
    (out.map (fun s => s.clv_percentage)).sum = 100 := by
  unfold get_clv_summary at h
  cases h1 : rfm.mapM (fun r => r.clv_segment) with
  | none => rw [h1] at h; simp at h
  | some segs =>
    rw [h1] at h
    cases h2 : rfm.mapM (fun r => r.clv) with
    | none => rw [h2] at h; simp at h
    | some clvs =>
      rw [h2] at h
      simp only [Except.ok.injEq] at h
      subst h
      exact clv_percentage_sum _ hT

/-- A CLV-augmented row in the "Low Value" segment (witness data). -/
def c8Row1 : Row :=
  { customer_id := 1, recency := 1, frequency := 1, monetary_sum := 10,
    monetary_avg := 10, T := 2, clv := some 10, clv_segment := some "Low Value" }

/-- A CLV-augmented row in the "Top Value" segment (witness data). -/
def c8Row2 : Row :=
  { customer_id := 2, recency := 1, frequency := 1, monetary_sum := 20,
    monetary_avg := 20, T := 2, clv := some 20, clv_segment := some "Top Value" }

/-- Witness table for the summary aggregation. -/
def c8Rows : List Row := [c8Row1, c8Row2]

/-- Summary row of the "Low Value" group of `c8Rows`. -/
def c8Sum1 : CLVSummaryRow :=
  { clv_segment := "Low Value", clv_count := 1, clv_mean := 10, clv_min := 10,
    clv_max := 10, clv_sum := 10, frequency_mean := 1, monetary_avg_mean := 10,
    clv_percentage := 100 / 3 }

/-- Summary row of the "Top Value" group of `c8Rows`. -/
def c8Sum2 : CLVSummaryRow :=
  { clv_segment := "Top Value", clv_count := 1, clv_mean := 20, clv_min := 20,
    clv_max := 20, clv_sum := 20, frequency_mean := 1, monetary_avg_mean := 20,
    clv_percentage := 200 / 3 }

theorem c8_keys :
    uniqueKeys (c8Rows.filterMap (fun r => r.clv_segment)) =
      ["Low Value", "Top Value"] := by
  decide

theorem c8_grp1 :
    c8Rows.filter (fun r => r.clv_segment == some "Low Value") = [c8Row1] := by
  decide

theorem c8_grp2 :
    c8Rows.filter (fun r => r.clv_segment == some "Top Value") = [c8Row2] := by
  decide

theorem c8_summary_eval : get_clv_summary c8Rows = Except.ok [c8Sum1, c8Sum2] := by
  have e1 : c8Rows.mapM (fun r => r.clv_segment) =
      some ["Low Value", "Top Value"] := rfl
  have e2 : c8Rows.mapM (fun r => r.clv) = some [10, 20] := rfl
  unfold get_clv_summary
  rw [e1, e2]
  simp only [c8_keys, List.map_cons, List.map_nil, c8_grp1, c8_grp2]
  norm_num [minQ, maxQ, c8Row1, c8Row2, c8Sum1, c8Sum2, List.filterMap_cons,
    List.filterMap_nil]

theorem c8_total_ne_zero :
    (([c8Sum1, c8Sum2].map (fun s => s.clv_sum)).sum : ℚ) ≠ 0 := by
  norm_num [c8Sum1, c8Sum2]

theorem c8_witness :
    (([c8Sum1, c8Sum2].map (fun s => s.clv_percentage)).sum : ℚ) = 100 :=
  c8_percentages_sum_100 c8Rows [c8Sum1, c8Sum2] c8_summary_eval c8_total_ne_zero

/-- The columns `add_rfm_scores` does not assign. -/
def Row.nonScoreCols (r : Row) :=
  (r.customer_id, r.recency, r.frequency, r.monetary_sum, r.monetary_avg, r.T,
   r.Customer_Segment, r.predicted_transactions, r.clv, r.clv_segment)

/-- The columns `get_customer_segment` does not assign. -/
def Row.nonSegmentCols (r : Row) :=
  (r.customer_id, r.recency, r.frequency, r.monetary_sum, r.monetary_avg, r.T,
   r.R_score, r.F_score, r.M_score, r.RFM_Score, r.predicted_transactions,
   r.clv, r.clv_segment)

/-- The columns `predict_clv` does not assign. -/
def Row.nonCLVCols (r : Row) :=
  (r.customer_id, r.recency, r.frequency, r.monetary_sum, r.monetary_avg, r.T,
   r.R_score, r.F_score, r.M_score, r.RFM_Score, r.Customer_Segment,
   r.clv_segment)

/-- The columns `get_clv_segments` does not assign. -/
def Row.nonClvSegCols (r : Row) :=
  (r.customer_id, r.recency, r.frequency, r.monetary_sum, r.monetary_avg, r.T,
   r.R_score, r.F_score, r.M_score, r.RFM_Score, r.Customer_Segment,
   r.predicted_transactions, r.clv)

/-- C10: each of `add_rfm_scores`, `get_customer_segment`, `predict_clv` and
`get_clv_segments` returns the input table with only its own new columns
written — every column the stage does not assign carries over unchanged,
row for row, and the newly assigned columns are present on every output
row. -/
theorem c10_stages_only_add_columns :
    (∀ (rfm : List Row) (q : Bool) (out : List Row),
       add_rfm_scores rfm q = Except.ok out →
       out.map Row.nonScoreCols = rfm.map Row.nonScoreCols ∧
       ∀ r ∈ out, (r.RFM_Score).isSome) ∧
    (∀ rfm : List Row,
       (get_customer_segment rfm).map Row.nonSegmentCols =
         rfm.map Row.nonSegmentCols ∧
       ∀ r ∈ get_customer_segment rfm, (r.Customer_Segment).isSome) ∧
    (∀ (c : CLVCalculator) (t d : ℚ) (rfm out : List Row),
       predict_clv c t d rfm = Except.ok out →
       out.map Row.nonCLVCols = rfm.map Row.nonCLVCols ∧
       ∀ r ∈ out, (r.predicted_transactions).isSome ∧ (r.clv).isSome) ∧
    (∀ rfm out : List Row,
       get_clv_segments rfm = Except.ok out →
       out.map Row.nonClvSegCols = rfm.map Row.nonClvSegCols ∧
       ∀ r ∈ out, (r.clv_segment).isSome) := by
  refine ⟨?_, ?_, ?_, ?_⟩
  · intro rfm q out h
    cases q with
    | false =>
      simp only [add_rfm_scores, Bool.false_eq_true, if_false,
        Except.ok.injEq] at h
      subst h
      refine ⟨?_, ?_⟩
      · rw [List.map_map]
        rfl
      · intro r hr
        rcases List.mem_map.mp hr with ⟨r0, _, rfl⟩
        rfl
    | true =>
      simp only [add_rfm_scores, if_true] at h
      split at h
      · simp only [Except.ok.injEq] at h
        subst h
        refine ⟨?_, ?_⟩
        · rw [List.map_map]
          rfl
        · intro r hr
          rcases List.mem_map.mp hr with ⟨r0, _, rfl⟩
          rfl
      · simp at h
      · simp at h
      · simp at h
  · intro rfm
    refine ⟨?_, ?_⟩
    · simp only [get_customer_segment, List.map_map]
      rfl
    · intro r hr
      rcases List.mem_map.mp hr with ⟨r0, _, rfl⟩
      rfl
  · intro c t d rfm out h
    unfold predict_clv at h
    cases hb : c.bgf_model with
    | none => rw [hb] at h; simp at h
    | some bgf =>
      cases hg : c.ggf_model with
      | none => rw [hb, hg] at h; simp at h
      | some ggf =>
        rw [hb, hg] at h
        simp only [Except.ok.injEq] at h
        subst h
        refine ⟨?_, ?_⟩
        · rw [List.map_map]
          rfl
        · intro r hr
          rcases List.mem_map.mp hr with ⟨r0, _, rfl⟩
          exact ⟨rfl, rfl⟩
  · intro rfm out h
    unfold get_clv_segments at h
    split at h
    · simp at h
    · split at h
      · simp at h
      · simp only [Except.ok.injEq] at h
        subst h
        refine ⟨?_, ?_⟩
        · rw [List.map_map]
          rfl
        · intro r hr
          rcases List.mem_map.mp hr with ⟨r0, _, rfl⟩
          rfl

/-- A constant fitted BG/NBD model (witness data). -/
def constBGF : BetaGeoFitter :=
  { penalizer_coef := 0, predict := fun _ _ _ _ => 0 }

/-- A constant fitted Gamma-Gamma model (witness data). -/
def constGGF : GammaGammaFitter :=
  { penalizer_coef := 0, customer_lifetime_value := fun _ _ _ _ _ _ _ => 0 }

/-- A calculator fitted through `fit_models` with the constant models. -/
def fittedCalc : CLVCalculator :=
  fit_models CLVCalculator.init (fun _ _ => constBGF) (fun _ _ => constGGF) 0 []

/-- The prediction output for `scRow1` under the constant models. -/
def scRow1Pred : Row :=
  { scRow1 with predicted_transactions := some 0, clv := some 0 }

theorem predict_scRow1_eval :
    predict_clv fittedCalc 1 0 [scRow1] = Except.ok [scRow1Pred] :=
  rfl

/-- One witness row with a given id and clv value. -/
def segRow (i : Nat) (c : ℚ) : Row :=
  { customer_id := i, recency := 1, frequency := 1, monetary_sum := c,
    monetary_avg := c, T := 2, clv := some c }

/-- Witness table for clv quartile segmentation: clv values 10, 20, 30, 40. -/
def c10SegRows : List Row :=
  [segRow 1 10, segRow 2 20, segRow 3 30, segRow 4 40]

/-- The segmented output of `c10SegRows`: quartile edges are 10, 17.5, 25,
32.5, 40, so the four rows land in the four labels in order. -/
def c10SegOut : List Row :=
  [{ segRow 1 10 with clv_segment := some "Low Value" },
   { segRow 2 20 with clv_segment := some "Medium Value" },
   { segRow 3 30 with clv_segment := some "High Value" },
   { segRow 4 40 with clv_segment := some "Top Value" }]

theorem c10_seg_eval : get_clv_segments c10SegRows = Except.ok c10SegOut := by
  have e : c10SegRows.mapM (fun r => r.clv) = some [10, 20, 30, 40] := rfl
  unfold get_clv_segments
  rw [e]
  norm_num [qcutBin, quantile, sortAsc, insertAsc, segRow, c10SegRows, c10SegOut,
    List.getD, Int.toNat_ofNat, List.getElem_cons_zero, List.getElem_cons_succ,
    List.getElem?_cons_zero, List.getElem?_cons_succ, Option.getD_some,
    (show (2 : ℤ).toNat = 2 from rfl), (show (3 : ℤ).toNat = 3 from rfl)]

theorem c10_witness :
    ([c6rowOut].map Row.nonScoreCols = [c6row].map Row.nonScoreCols) ∧
    ((get_customer_segment [scRow1]).map Row.nonSegmentCols =
      [scRow1].map Row.nonSegmentCols) ∧
    ([scRow1Pred].map Row.nonCLVCols = [scRow1].map Row.nonCLVCols) ∧
    (c10SegOut.map Row.nonClvSegCols = c10SegRows.map Row.nonClvSegCols) :=
  ⟨(c10_stages_only_add_columns.1 [c6row] false [c6rowOut]
      add_rfm_scores_c6row_eval).1,
   (c10_stages_only_add_columns.2.1 [scRow1]).1,
   (c10_stages_only_add_columns.2.2.1 fittedCalc 1 0 [scRow1] _
      predict_scRow1_eval).1,
   (c10_stages_only_add_columns.2.2.2 c10SegRows c10SegOut c10_seg_eval).1⟩
